import Mathlib

/-!
Shallow embedding of `src/recycler.rs` (crate `recycler`).

The source is a small object pool.  `Recycler<T>` owns a `Mutex<Vec<T>>`
called the landfill (the free list); `Recycler::allocate` pops the last
element of the vec (resetting it) or default-constructs a fresh value, and
wraps it in a `Recyclable` handle; dropping the handle pushes the value
back onto the vec.

Modelling conventions:
* The landfill `Vec<T>` is a `List T` whose *end* is the end of the vec,
  so `Vec::push` is `· ++ [v]` and `Vec::pop` is `getLast?`/`dropLast`.
* The `Mutex` wrapper disappears in the sequential model; the lock-scope
  and poisoning behaviour of the source are modelled separately by an
  event trace (`allocateTrace`, `dropTrace`) and an `Except`-level layer
  (`allocateE`, `dropE`).
* Rust's in-place `fn reset(&mut self)` and `Default::default()` become a
  pure record of capabilities `DefaultReset`.
* The source is generic over `T: Default + Reset`; theorems instantiate it
  at particular Lean types (`Foo` from the crate's tests, an instrumented
  type counting reset calls, a tagged type tracking identity), exactly as
  Rust client code may.
-/

/-- The capability bound `T: Default + Reset` of the source: `Default::default`
plus `trait Reset { fn reset(&mut self); }` (recycler.rs lines 5-7), with the
in-place `reset` modelled as a pure function `T → T`. -/
structure DefaultReset (T : Type) where
  default : T
  reset : T → T

/-- `struct Recyclable<'a, T> { val: Option<T>, landfill: &'a Mutex<Vec<T>> }`
(recycler.rs lines 10-13).  The landfill the handle refers to is threaded
through explicitly as a `List T`, so the handle itself carries only `val`. -/
structure Recyclable (T : Type) where
  val : Option T

/-- `Recycler::allocate` (recycler.rs lines 53-67):
`self.landfill.lock().unwrap().pop().map(|mut val| { val.reset(); val }).unwrap_or_default()`
then wraps the value as `Recyclable { val: Some(val), landfill: &self.landfill }`.
`Vec::pop` removes the last element, so the popped value is `getLast?` and the
remaining vec is `dropLast`.  Returns the handle and the landfill left behind. -/
def allocate {T : Type} (C : DefaultReset T) (landfill : List T) :
    Recyclable T × List T :=
  match landfill.getLast? with
  | some v => (⟨some (C.reset v)⟩, landfill.dropLast)
  | none => (⟨some C.default⟩, landfill)

/-- `impl Drop for Recyclable` (recycler.rs lines 27-33):
`if let Some(val) = self.val.take() { self.landfill.lock().unwrap().push(val) }`.
Taking the option leaves `None` behind; `Vec::push` appends at the end. -/
def Recyclable.drop {T : Type} (r : Recyclable T) (landfill : List T) :
    Recyclable T × List T :=
  match r.val with
  | some v => (⟨none⟩, landfill ++ [v])
  | none => (r, landfill)

/-- `AsRef::as_ref` (recycler.rs lines 15-19): `self.val.as_ref().unwrap()`.
The `unwrap` succeeds exactly when `val` is `Some`; the proof obligation `h`
makes that explicit (`as_mut` on lines 21-25 is identical modulo mutability). -/
def Recyclable.as_ref {T : Type} (r : Recyclable T) (h : r.val.isSome) : T :=
  r.val.get h

/-- Writing through `as_mut` (as the crate's tests do with
`foo.as_mut().x = 1`): the held value, when present, is replaced by `f` of
itself.  When `val` is `None` the write is impossible (`as_mut` would panic),
so the map leaves `None` unchanged. -/
def Recyclable.modifyVal {T : Type} (f : T → T) (r : Recyclable T) :
    Recyclable T :=
  ⟨r.val.map f⟩

/-- One allocate/return pair: `allocate()` immediately followed by the end of
the returned handle's scope (`Recyclable::drop`).  Returns the landfill after
the pair. -/
def pairStep {T : Type} (C : DefaultReset T) (landfill : List T) : List T :=
  let a := allocate C landfill
  (Recyclable.drop a.1 a.2).2

/-- The pooled type of the crate's tests (recycler.rs lines 77-80):
`struct Foo { x: u8 }`.  The tests only ever store 0 or 1 in `x` and perform
no arithmetic on it, so `Nat` models `u8` exactly here. -/
structure Foo where
  x : Nat
  deriving DecidableEq

/-- `impl Default for Foo` (derived: `x = 0`) and `impl Reset for Foo`
(recycler.rs lines 82-86: `self.x = 0`). -/
def fooCaps : DefaultReset Foo :=
  ⟨⟨0⟩, fun f => { f with x := 0 }⟩

/-- A value instrumented with a counter of how many times `reset` has been
invoked on it.  A Rust client may instantiate `Recycler<T>` at such a type,
so running the generic `allocate` on it observes exactly the reset calls the
source makes. -/
structure Instr (T : Type) where
  val : T
  resets : Nat

/-- The `Default + Reset` instance for the instrumented type: `default` starts
the counter at 0, `reset` performs the underlying reset and increments the
counter. -/
def instrCaps {T : Type} (C : DefaultReset T) : DefaultReset (Instr T) :=
  ⟨⟨C.default, 0⟩, fun i => ⟨C.reset i.val, i.resets + 1⟩⟩

/-- A value carrying an identity tag, to observe which storage `allocate`
reuses.  `reset` clears the payload but preserves the tag, as a faithful Rust
`Reset` implementation for such a type would. -/
structure Tagged where
  tag : Nat
  payload : Nat
  deriving DecidableEq

/-- `Default + Reset` for `Tagged`: default is tag 0 / payload 0, reset zeroes
the payload and keeps the identity tag. -/
def taggedCaps : DefaultReset Tagged :=
  ⟨⟨0, 0⟩, fun t => { t with payload := 0 }⟩

/-- Events of the lock-scope trace of `allocate` and `Recyclable::drop`. -/
inductive Ev where
  | lock
  | pop
  | reset
  | defaultCtor
  | unlock
  | push
  deriving DecidableEq

/-- The event trace of `Recycler::allocate` (recycler.rs lines 53-67), in
source evaluation order.  `self.landfill.lock().unwrap()` produces a
`MutexGuard` *temporary*; by Rust's temporary-lifetime rule it is dropped at
the end of the enclosing `let val = ...;` statement, i.e. after
`.pop().map(|mut val| { val.reset(); val }).unwrap_or_default()` has fully
evaluated.  So the closure's `val.reset()` (on a hit) and the
`unwrap_or_default()` construction (on a miss) both run before the guard is
dropped, and `unlock` comes last. -/
def allocateTrace {T : Type} (landfill : List T) : List Ev :=
  [Ev.lock, Ev.pop] ++
    (match landfill.getLast? with
     | some _ => [Ev.reset]
     | none => [Ev.defaultCtor]) ++
    [Ev.unlock]

/-- The event trace of `Recyclable::drop` (recycler.rs lines 27-33): when the
handle still holds a value, `self.landfill.lock().unwrap().push(val)` — the
guard temporary is dropped at the end of that statement, after the push; when
the value was already taken, nothing happens. -/
def dropTrace {T : Type} (r : Recyclable T) : List Ev :=
  match r.val with
  | some _ => [Ev.lock, Ev.push, Ev.unlock]
  | none => []

/-- The events executed while the lock is held: everything strictly between
the `lock` event and the `unlock` event of a trace. -/
def criticalSection (tr : List Ev) : List Ev :=
  ((tr.dropWhile (fun e => e != Ev.lock)).drop 1).takeWhile
    (fun e => e != Ev.unlock)

/-- The pool's shared state including the mutex's poison flag: a Rust mutex
becomes poisoned when a thread panics while holding it. -/
structure MState (T : Type) where
  poisoned : Bool
  landfill : List T

/-- `self.landfill.lock().unwrap()`: on a poisoned mutex, `lock` returns
`Err(PoisonError)` and `unwrap` panics, propagating the condition to the
caller; the panic is modelled as `Except.error ()`. -/
def lockLandfill {T : Type} (s : MState T) : Except Unit (List T) :=
  if s.poisoned then Except.error () else Except.ok s.landfill

/-- `Recycler::allocate` with the lock acquisition's failure mode visible
(recycler.rs lines 53-67): acquiring a poisoned lock panics before the free
list is touched; otherwise the allocation proceeds as in `allocate`. -/
def allocateE {T : Type} (C : DefaultReset T) (s : MState T) :
    Except Unit (Recyclable T × MState T) := do
  let land ← lockLandfill s
  let a := allocate C land
  pure (a.1, { s with landfill := a.2 })

/-- `Recyclable::drop` with the lock acquisition's failure mode visible
(recycler.rs lines 27-33): when the handle still holds a value, acquiring a
poisoned lock panics before the push; when the value was already taken, no
lock is acquired and nothing happens. -/
def dropE {T : Type} (r : Recyclable T) (s : MState T) :
    Except Unit (Recyclable T × MState T) :=
  match r.val with
  | some v => do
      let land ← lockLandfill s
      pure (⟨none⟩, { s with landfill := land ++ [v] })
  | none => pure (r, s)

/-! ### Helper lemmas -/

/-- `allocate` on a non-empty landfill pops the last element, resets it, and
leaves the rest. -/
theorem allocate_concat {T : Type} (C : DefaultReset T) (l : List T) (v : T) :
    allocate C (l ++ [v]) = (⟨some (C.reset v)⟩, l) := by
  simp [allocate, List.getLast?_concat, List.dropLast_concat]

/-- `allocate` on an empty landfill default-constructs. -/
theorem allocate_nil {T : Type} (C : DefaultReset T) :
    allocate C ([] : List T) = (⟨some C.default⟩, []) := rfl

/-- One allocate/return pair leaves the landfill at size `max n 1`: size `n`
when the pool was non-empty (pop then push), size `1` when it was empty
(default-construct then push). -/
theorem pairStep_length {T : Type} (C : DefaultReset T) (landfill : List T) :
    (pairStep C landfill).length = max landfill.length 1 := by
  induction landfill using List.reverseRecOn with
  | nil => simp [pairStep, allocate, Recyclable.drop]
  | append_singleton l a ih =>
      simp [pairStep, allocate_concat, Recyclable.drop]

/-- Iterating pairs: after at least one complete pair the landfill size is
`max n 1` where `n` was the pre-sequence size. -/
theorem pairStep_iterate_length {T : Type} (C : DefaultReset T)
    (landfill : List T) (k : Nat) :
    ((pairStep C)^[k + 1] landfill).length = max landfill.length 1 := by
  induction k with
  | zero => simpa using pairStep_length C landfill
  | succ j ih =>
      rw [Function.iterate_succ_apply' (pairStep C) (j + 1) landfill,
        pairStep_length C, ih]
      omega

/-! ### Claim theorems -/

/-- Claim C1 (Scenario B): starting from an empty pool, `allocate()` returns a
handle h1; a field of h1's value is mutated (any in-place mutation `f`,
covering "to a non-default value"); h1's scope ends: the free list then has
length 1.  A subsequent `allocate()` returns a handle h2 whose value is the
default value (reset restored it, by the `Reset` contract `hC`), and the free
list then has length 0. -/
theorem c1_scenario_b {T : Type} (C : DefaultReset T)
    (hC : ∀ v, C.reset v = C.default) (f : T → T) :
    ((Recyclable.drop (Recyclable.modifyVal f (allocate C ([] : List T)).1)
        (allocate C ([] : List T)).2).2).length = 1 ∧
    (allocate C
      (Recyclable.drop (Recyclable.modifyVal f (allocate C ([] : List T)).1)
        (allocate C ([] : List T)).2).2).1.val = some C.default ∧
    (allocate C
      (Recyclable.drop (Recyclable.modifyVal f (allocate C ([] : List T)).1)
        (allocate C ([] : List T)).2).2).2.length = 0 := by
  simp [allocate, Recyclable.modifyVal, Recyclable.drop, hC]

/-- Witness for C1: the scenario run concretely with the crate's test type
`Foo`, mutating `x` to 1. -/
theorem c1_scenario_b_witness :
    ((Recyclable.drop
        (Recyclable.modifyVal (fun g => { g with x := 1 })
          (allocate fooCaps ([] : List Foo)).1)
        (allocate fooCaps ([] : List Foo)).2).2).length = 1 ∧
    (allocate fooCaps
      (Recyclable.drop
        (Recyclable.modifyVal (fun g => { g with x := 1 })
          (allocate fooCaps ([] : List Foo)).1)
        (allocate fooCaps ([] : List Foo)).2).2).1.val = some fooCaps.default ∧
    (allocate fooCaps
      (Recyclable.drop
        (Recyclable.modifyVal (fun g => { g with x := 1 })
          (allocate fooCaps ([] : List Foo)).1)
        (allocate fooCaps ([] : List Foo)).2).2).2.length = 0 :=
  c1_scenario_b fooCaps (fun _ => rfl) (fun g => { g with x := 1 })

/-- Claim C2: running `allocate` at the instrumented type that counts reset
invocations: when the free list is non-empty the returned value is the popped
one with its reset counter incremented by exactly one (reset applied exactly
once before exposure); when the free list is empty the returned value is the
freshly default-constructed one, whose counter is 0 (reset never invoked). -/
theorem c2_reset_count {T : Type} (C : DefaultReset T)
    (landfill : List (Instr T)) :
    (∀ v, landfill.getLast? = some v →
      (allocate (instrCaps C) landfill).1.val =
        some ⟨C.reset v.val, v.resets + 1⟩) ∧
    (landfill = [] →
      (allocate (instrCaps C) landfill).1.val = some ⟨C.default, 0⟩) := by
  constructor
  · intro v hv
    simp [allocate, hv, instrCaps]
  · intro h
    subst h
    rfl

/-- Witness for C2: popping the instrumented value `⟨x := 5, resets := 2⟩`
yields reset counter exactly 3. -/
theorem c2_reset_count_witness :
    (allocate (instrCaps fooCaps) [(⟨⟨5⟩, 2⟩ : Instr Foo)]).1.val =
      some ⟨⟨0⟩, 3⟩ :=
  (c2_reset_count fooCaps [⟨⟨5⟩, 2⟩]).1 ⟨⟨5⟩, 2⟩ (by simp)

/-- Claim C3 counterexample: `Recyclable::drop` pushes the value back
*without* resetting it (reset happens only on the way out, in `allocate`).
Reachable state: from an empty pool, allocate, set `x := 1`, end the scope;
the free list is `[⟨1⟩]`, which contains a value that is not in the default
state — refuting "every value resident in the free list is in the default
state". -/
theorem c3_counterexample :
    (Recyclable.drop
      (Recyclable.modifyVal (fun g => { g with x := 1 })
        (allocate fooCaps ([] : List Foo)).1)
      (allocate fooCaps ([] : List Foo)).2).2 = [⟨1⟩] ∧
    ¬ (∀ v ∈ (Recyclable.drop
        (Recyclable.modifyVal (fun g => { g with x := 1 })
          (allocate fooCaps ([] : List Foo)).1)
        (allocate fooCaps ([] : List Foo)).2).2, v = fooCaps.default) := by
  decide

/-- Claim C3 amended: values enter the free list unmodified and may be in a
non-default state; instead, reset is applied when a value is popped by
`allocate`, so (under the `Reset` contract `hC`) every reused value is in the
default state at the moment it is exposed through the returned handle. -/
theorem c3_amended {T : Type} (C : DefaultReset T)
    (hC : ∀ v, C.reset v = C.default) (landfill : List T) (v : T)
    (hv : landfill.getLast? = some v) :
    (allocate C landfill).1.val = some C.default := by
  simp [allocate, hv, hC]

/-- Witness for the amended C3: popping the non-default resident `⟨1⟩`
exposes the default value. -/
theorem c3_amended_witness :
    (allocate fooCaps [(⟨1⟩ : Foo)]).1.val = some fooCaps.default :=
  c3_amended fooCaps (fun _ => rfl) [⟨1⟩] ⟨1⟩ (by simp)

/-- Claim C5 (LIFO by identity): after returning value A and then value B to
the pool, with no intervening construction, the next two `allocate()` calls
reuse B's storage before A's — observed through identity tags that `reset`
preserves. -/
theorem c5_lifo (landfill : List Tagged) (a b : Tagged) :
    Option.map Tagged.tag
      (allocate taggedCaps
        ((Recyclable.drop ⟨some b⟩
          ((Recyclable.drop ⟨some a⟩ landfill).2)).2)).1.val = some b.tag ∧
    Option.map Tagged.tag
      (allocate taggedCaps
        (allocate taggedCaps
          ((Recyclable.drop ⟨some b⟩
            ((Recyclable.drop ⟨some a⟩ landfill).2)).2)).2).1.val =
      some a.tag := by
  have h1 : (Recyclable.drop (⟨some b⟩ : Recyclable Tagged)
      ((Recyclable.drop ⟨some a⟩ landfill).2)).2 = (landfill ++ [a]) ++ [b] :=
    rfl
  refine ⟨?_, ?_⟩
  · rw [h1, allocate_concat]
    rfl
  · rw [h1, allocate_concat]
    show Option.map Tagged.tag
      (allocate taggedCaps (landfill ++ [a])).1.val = some a.tag
    rw [allocate_concat]
    rfl

/-- Claim C7: `allocate` is total (it always returns a handle holding a
value; the only failure modes of the source are panics propagated from lock
poisoning or user code, outside normal operation), and it reduces the
free-list size by at most one and never increases it. -/
theorem c7_allocate_total_bounded {T : Type} (C : DefaultReset T)
    (landfill : List T) :
    (allocate C landfill).1.val.isSome = true ∧
    (allocate C landfill).2.length ≤ landfill.length ∧
    landfill.length ≤ (allocate C landfill).2.length + 1 := by
  induction landfill using List.reverseRecOn with
  | nil => simp [allocate]
  | append_singleton l a ih => simp [allocate_concat]

/-- Claim C10: every handle returned by `allocate` holds `Some` value, and
still does after any write through `as_mut` — so the `unwrap` inside
`as_ref`/`as_mut` is unreachable on a live handle; `drop` takes the option,
leaving `None`, so a second run of the drop logic pushes nothing (the value
is returned at most once). -/
theorem c10_handle_liveness {T : Type} (C : DefaultReset T)
    (landfill : List T) (f : T → T) (r : Recyclable T) :
    (allocate C landfill).1.val.isSome = true ∧
    (Recyclable.modifyVal f (allocate C landfill).1).val.isSome = true ∧
    (Recyclable.drop r landfill).1.val = none ∧
    Recyclable.drop (Recyclable.drop r landfill).1
        (Recyclable.drop r landfill).2 =
      Recyclable.drop r landfill := by
  refine ⟨?_, ?_, ?_, ?_⟩
  · cases hl : landfill.getLast? <;> simp [allocate, hl]
  · cases hl : landfill.getLast? <;>
      simp [allocate, Recyclable.modifyVal, hl]
  · rcases r with ⟨v⟩
    cases v <;> simp [Recyclable.drop]
  · rcases r with ⟨v⟩
    cases v <;> simp [Recyclable.drop]

/-- Claim C4 counterexample: on a non-empty pool, the critical section of
`allocate` is not "exactly one pop": the `MutexGuard` temporary lives to the
end of the `let` statement, so the popped value's `reset` runs *while the
lock is held*. -/
theorem c4_counterexample :
    Ev.reset ∈ criticalSection (allocateTrace [(⟨1⟩ : Foo)]) ∧
    criticalSection (allocateTrace [(⟨1⟩ : Foo)]) ≠ [Ev.pop] := by
  decide

/-- Claim C4 amended: the guard returned by `lock()` is a temporary dropped
only at the end of the `let val = ...;` statement, so `allocate`'s critical
section is the pop followed by the reset of the popped value (on a hit) or by
the default construction (on a miss) — reset does execute while the lock is
held.  On the return path (`Recyclable::drop` with a live value) the critical
section is exactly one push. -/
theorem c4_amended {T : Type} (landfill : List T) (r : Recyclable T) :
    criticalSection (allocateTrace landfill) =
      (match landfill.getLast? with
       | some _ => [Ev.pop, Ev.reset]
       | none => [Ev.pop, Ev.defaultCtor]) ∧
    (r.val.isSome = true → criticalSection (dropTrace r) = [Ev.push]) := by
  constructor
  · cases hl : landfill.getLast? <;> simp [allocateTrace, hl] <;> decide
  · intro hr
    rcases r with ⟨v⟩
    cases v with
    | none => simp at hr
    | some v => rfl

/-- Witness for the amended C4: concretely, a miss has critical section
`[pop, defaultCtor]` and a live handle's return has critical section
`[push]`. -/
theorem c4_amended_witness :
    criticalSection (allocateTrace ([] : List Foo)) =
      [Ev.pop, Ev.defaultCtor] ∧
    criticalSection (dropTrace (⟨some ⟨0⟩⟩ : Recyclable Foo)) = [Ev.push] :=
  ⟨(c4_amended ([] : List Foo) (⟨some ⟨0⟩⟩ : Recyclable Foo)).1,
   (c4_amended ([] : List Foo) (⟨some ⟨0⟩⟩ : Recyclable Foo)).2 rfl⟩

/-- Claim C6 counterexample: one complete allocate/return pair starting from
an *empty* pool leaves the free list at size 1, not at its pre-sequence size
0 — the allocate was a miss (default construction) and the return still
pushes. -/
theorem c6_counterexample :
    (pairStep fooCaps ([] : List Foo)).length = 1 ∧
    (pairStep fooCaps ([] : List Foo)).length ≠ ([] : List Foo).length := by
  decide

/-- Claim C6 amended: after each complete allocate/return pair (any `k ≥ 1`
pairs) the free-list size is `max n 1` where `n` is the pre-sequence size —
it returns to the pre-sequence value whenever that value was positive, and
settles at 1 from the first pair onward when starting empty.  Sizes are list
lengths (naturals), and the mid-pair pop never underflows: it leaves exactly
`n - 1` (truncated at 0) elements. -/
theorem c6_amended {T : Type} (C : DefaultReset T) (landfill : List T)
    (k : Nat) (hk : 1 ≤ k) :
    ((pairStep C)^[k] landfill).length = max landfill.length 1 ∧
    (allocate C landfill).2.length = landfill.length - 1 := by
  obtain ⟨j, rfl⟩ : ∃ j, k = j + 1 := ⟨k - 1, by omega⟩
  refine ⟨pairStep_iterate_length C landfill j, ?_⟩
  induction landfill using List.reverseRecOn with
  | nil => rfl
  | append_singleton l a ih => simp [allocate_concat]

/-- Witness for the amended C6: one pair on a singleton pool keeps size 1,
and the mid-pair pop leaves size 0. -/
theorem c6_amended_witness :
    ((pairStep fooCaps)^[1] [(⟨3⟩ : Foo)]).length = 1 ∧
    (allocate fooCaps [(⟨3⟩ : Foo)]).2.length = 0 := by
  simpa using c6_amended fooCaps [(⟨3⟩ : Foo)] 1 (by decide)

/-- Claim C9: once the mutex is poisoned (a prior critical section panicked
while holding the lock), every subsequent lock acquisition — by `allocate`,
or by a handle's return path when it still holds a value — surfaces the
condition (`lock().unwrap()` panics, modelled as `Except.error`) instead of
silently proceeding against the free list. -/
theorem c9_poison_surfaced {T : Type} (C : DefaultReset T) (s : MState T)
    (hp : s.poisoned = true) (r : Recyclable T) (hr : r.val.isSome = true) :
    allocateE C s = Except.error () ∧ dropE r s = Except.error () := by
  constructor
  · simp [allocateE, lockLandfill, hp]
  · rcases r with ⟨v⟩
    cases v with
    | none => simp at hr
    | some v => simp [dropE, lockLandfill, hp]

/-- Witness for C9: on a concrete poisoned state, both `allocate` and a live
handle's return fail with the surfaced error. -/
theorem c9_poison_surfaced_witness :
    allocateE fooCaps (⟨true, []⟩ : MState Foo) = Except.error () ∧
    dropE (⟨some ⟨0⟩⟩ : Recyclable Foo) (⟨true, []⟩ : MState Foo) =
      Except.error () :=
  c9_poison_surfaced fooCaps ⟨true, []⟩ rfl ⟨some ⟨0⟩⟩ rfl
